import Mathlib

/-!
Shallow embedding of `src/credentials_manager/credentials_manager.py`.

The program is a process-wide singleton `CredentialsManager` holding a
mapping from key names to key values (`self._keys`, a Python dict with
string keys and string values), backed by a JSON config file, with an
environment-variable override pass at construction.

Modelling choices:
- A Python dict with string keys/values is an association list with unique
  keys; `d[k] = v` updates the existing entry in place or appends.
- The filesystem is abstracted to the one file the program touches: whether
  it exists, and its parsed content (`FileData.valid d` when the file is
  readable JSON parsing to dict `d`; `FileData.invalid cause` when reading
  or JSON parsing fails with message `cause`).
- The environment is a function from variable names to `Option String`
  (`os.getenv` returns None when unset).
- Python exceptions become explicit error values (`PyError`); a method that
  never raises returns no error channel.
- The config file path is kept abstract as a string parameter (the source
  computes it from the module location).
-/

namespace CredManager

/-- A Python dict with string keys and string values, as an association
list with unique keys (Python dicts preserve insertion order). -/
abbrev Dict := List (String × String)

/-- Python `d.get(key)`: the value bound to `key`, or `none`. -/
def dictGet : Dict → String → Option String
  | [], _ => none
  | (k, v) :: rest, key => if k = key then some v else dictGet rest key

/-- Python `d[key] = val`: update the existing entry in place, or append. -/
def dictInsert : Dict → String → String → Dict
  | [], key, val => [(key, val)]
  | (k, v) :: rest, key, val =>
    if k = key then (key, val) :: rest else (k, v) :: dictInsert rest key val

/-- The class attribute `DEFAULT_CONFIG` of `CredentialsManager`. -/
def DEFAULT_CONFIG : Dict := [("EXAMPLE_API_NAME", "EXAMPLE_API_KEY")]

/-- The exceptions the program can raise. -/
inductive PyError where
  | nameError (name : String)
  | valueError (msg : String)
  | runtimeError (msg : String)
deriving DecidableEq, Repr

/-- Content of the config file as seen through `json.load`: either it reads
and parses to a dict, or reading/parsing fails with a cause message. -/
inductive FileData where
  | valid (d : Dict)
  | invalid (cause : String)
deriving DecidableEq, Repr

/-- The one file the program touches. -/
structure FS where
  fileExists : Bool
  fileContent : FileData
deriving DecidableEq, Repr

/-- The fields of a `CredentialsManager` instance relevant to the claims:
`self._config_path` and `self._keys`. -/
structure ManagerState where
  config_path : String
  keys : Dict
deriving DecidableEq, Repr

/-- Process-wide state: the class attribute `_instance` (the singleton slot)
and the filesystem. -/
structure ProcState where
  inst : Option ManagerState
  fs : FS
deriving DecidableEq, Repr

/-- `json.load` on an empty file fails with this message; `open(path, "w")`
truncates the file before anything is written to it. -/
def emptyFileJsonErr : String := "Expecting value: line 1 column 1 (char 0)"

/-- `CredentialsManager._load_config_file`. When the file does not exist the
source opens it for writing (creating an empty file) and then evaluates
`json.dump(DEFAULT_CONFIG, f, indent=4)`; the bare name `DEFAULT_CONFIG` is
not bound at module level (the class attribute is only reachable as
`self.DEFAULT_CONFIG`), so evaluating it raises `NameError` before any
content is written. When the file exists, `json.load` either yields the
parsed dict or the exception is re-raised as a `RuntimeError` whose message
carries the path and the cause. -/
def load_config_file (fs : FS) (config_path : String) :
    Except PyError Dict × FS :=
  if fs.fileExists = false then
    (Except.error (PyError.nameError "DEFAULT_CONFIG"),
     { fileExists := true, fileContent := FileData.invalid emptyFileJsonErr })
  else
    match fs.fileContent with
    | FileData.valid d => (Except.ok d, fs)
    | FileData.invalid cause =>
      (Except.error (PyError.runtimeError
        ("Error reading configuration file " ++ config_path ++ ": " ++ cause)),
       fs)

/-- Python `key.upper()`: upper-case every character (modelled on the ASCII
range, which covers the key names the program uses). -/
def to_upper (s : String) : String :=
  String.mk (s.data.map Char.toUpper)

/-- The body of the loop in `_override_with_env` for one key: the value the
key ends up with. `env_value = os.getenv(key.upper())` is `None` when the
variable is unset, and the `if env_value:` guard treats the empty string as
falsy, so the stored value is replaced exactly when the variable is set to a
non-empty string. -/
def env_value (env : String → Option String) (key v : String) : String :=
  match env (to_upper key) with
  | some ev => if ev = "" then v else ev
  | none => v

/-- `CredentialsManager._override_with_env`: for each key of `self._keys`,
if `os.getenv(key.upper())` is set and truthy (a non-empty string), replace
the value. The loop only rebinds existing keys, so it is a map over the
entries. -/
def override_with_env (env : String → Option String) (d : Dict) : Dict :=
  d.map (fun kv => (kv.1, env_value env kv.1 kv.2))

/-- Python `s.startswith(pre)` on the character lists: true when `pre` is an
initial segment of `s`, compared case-sensitively character by character. -/
def starts_with_chars : List Char → List Char → Bool
  | _, [] => true
  | [], _ :: _ => false
  | c :: s, p :: ps => if c = p then starts_with_chars s ps else false

/-- Python `s.startswith(pre)`. -/
def starts_with (s pre : String) : Bool :=
  starts_with_chars s.data pre.data

/-- The `ValueError` message built by `get_key` (an f-string interpolating
the key name and `self._config_path`). -/
def key_error_msg (config_path key_name : String) : String :=
  "API key for \x27" ++ key_name ++ "\x27 is not set. Please update " ++
    config_path ++ " with your actual API key."

/-- `CredentialsManager.get_key`: look the key up in `self._keys`; raise
`ValueError` when absent or when the value starts with `"Your"`, otherwise
return the value. -/
def get_key (st : ManagerState) (key_name : String) : Except PyError String :=
  match dictGet st.keys key_name with
  | none => Except.error (PyError.valueError (key_error_msg st.config_path key_name))
  | some key =>
    if starts_with key "Your" then
      Except.error (PyError.valueError (key_error_msg st.config_path key_name))
    else
      Except.ok key

/-- `get_key` as a step on the full state. The source method only reads
`self._keys` and `self._config_path`; it assigns nothing and writes no file,
so its effect on instance and filesystem is the identity. -/
def get_key_st (st : ManagerState) (fs : FS) (key_name : String) :
    Except PyError String × ManagerState × FS :=
  (get_key st key_name, st, fs)

/-- `CredentialsManager._save_config`: dump `self._keys` as JSON over the
config file. `write_err = none` models a successful write; `some e` models
`open`/`json.dump` failing with message `e`, in which case the exception is
caught and a message is printed (returned here as the log list) and the
filesystem is left as it was. The method never raises. -/
def save_config (keys : Dict) (fs : FS) (write_err : Option String) :
    FS × List String :=
  match write_err with
  | none => ({ fileExists := true, fileContent := FileData.valid keys }, [])
  | some e => (fs, ["Error saving configuration file: " ++ e])

/-- `CredentialsManager.set_key`: upsert `self._keys[key_name] = key_value`,
then `self._save_config()`. Returns the updated instance, the filesystem
after the save attempt, and any log output; there is no error channel
because `_save_config` catches every exception. -/
def set_key (st : ManagerState) (fs : FS) (write_err : Option String)
    (key_name key_value : String) : ManagerState × FS × List String :=
  let keys2 := dictInsert st.keys key_name key_value
  let st2 : ManagerState := { st with keys := keys2 }
  let r := save_config keys2 fs write_err
  (st2, r.1, r.2)

/-- `set_key` invoked through the singleton: the caller holds the instance
stored in `_instance`, and the mutation is visible through that slot. -/
def set_key_proc (ps : ProcState) (write_err : Option String)
    (key_name key_value : String) : ProcState × List String :=
  match ps.inst with
  | none => (ps, [])
  | some st =>
    let r := set_key st ps.fs write_err key_name key_value
    ({ inst := some r.1, fs := r.2.1 }, r.2.2)

/-- Result of `CredentialsManager()`: either the (new or existing) instance,
or the exception `__init__` raised. -/
inductive InitResult where
  | ok (st : ManagerState)
  | err (e : PyError)
deriving DecidableEq, Repr

/-- `CredentialsManager()`: `__new__` stores a fresh instance in `_instance`
when the slot is empty, then `__init__` runs; the `_initialized` guard makes
the body run only on the first construction. The body sets
`self._keys = {}`, loads the config file and applies the environment
override pass. When loading raises, the exception propagates to the caller,
but `_instance` keeps the partially initialised object (with empty keys),
exactly as in Python. On later constructions the existing instance is
returned untouched and the arguments are irrelevant. -/
def construct (env : String → Option String) (config_path : String)
    (ps : ProcState) : InitResult × ProcState :=
  match ps.inst with
  | some st => (InitResult.ok st, ps)
  | none =>
    let r := load_config_file ps.fs config_path
    match r.1 with
    | Except.error e =>
      (InitResult.err e,
       { inst := some { config_path := config_path, keys := [] }, fs := r.2 })
    | Except.ok d =>
      let keys := override_with_env env d
      let st : ManagerState := { config_path := config_path, keys := keys }
      (InitResult.ok st, { inst := some st, fs := r.2 })

/-! Helper lemmas about the dict operations. -/

/-- Upserting a key makes lookup of that key return the new value. -/
theorem dictGet_dictInsert_self (d : Dict) (k v : String) :
    dictGet (dictInsert d k v) k = some v := by
  induction d with
  | nil => simp [dictInsert, dictGet]
  | cons hd tl ih =>
    obtain ⟨k0, v0⟩ := hd
    by_cases h : k0 = k
    · simp [dictInsert, dictGet, h]
    · simp [dictInsert, dictGet, h, ih]

/-- Upserting a key leaves lookup of every other key unchanged. -/
theorem dictGet_dictInsert_ne (d : Dict) (k v k2 : String) (h : k2 ≠ k) :
    dictGet (dictInsert d k v) k2 = dictGet d k2 := by
  have h2 : k ≠ k2 := Ne.symm h
  induction d with
  | nil => simp [dictInsert, dictGet, h2]
  | cons hd tl ih =>
    obtain ⟨k0, v0⟩ := hd
    by_cases hk : k0 = k
    · subst hk
      simp [dictInsert, dictGet, h2]
    · simp [dictInsert, dictGet, hk, ih]

/-- Lookup after the environment override pass: the value of each key found
in the loaded dict, with the override applied when the upper-cased variable
is set and non-empty. -/
theorem dictGet_override_with_env (env : String → Option String) (d : Dict)
    (k : String) :
    dictGet (override_with_env env d) k =
      (dictGet d k).map (env_value env k) := by
  induction d with
  | nil => rfl
  | cons hd tl ih =>
    simp only [override_with_env, List.map_cons] at ih ⊢
    by_cases h : hd.1 = k
    · simp [dictGet, h]
    · simp [dictGet, h, ih]

/-- C1: `get_key name` returns the stored value `KeyStore[name]`, and raises
the key-not-configured error exactly when the key is absent from the store
or its value begins with the literal "Your"; the error message contains the
config file path; this also holds for a key that was just set to a
"Your"-prefixed value. -/
theorem get_key_contract (st : ManagerState) (name : String) :
    (∀ v, dictGet st.keys name = some v → starts_with v "Your" = false →
      get_key st name = Except.ok v) ∧
    ((dictGet st.keys name = none ∨
        ∃ v, dictGet st.keys name = some v ∧ starts_with v "Your" = true) ↔
      get_key st name =
        Except.error (PyError.valueError (key_error_msg st.config_path name))) ∧
    (∃ a b, key_error_msg st.config_path name = a ++ st.config_path ++ b) ∧
    (∀ fs we v, starts_with v "Your" = true →
      get_key (set_key st fs we name v).1 name =
        Except.error (PyError.valueError (key_error_msg st.config_path name))) := by
  refine ⟨?_, ?_, ?_, ?_⟩
  · intro v hv hns
    simp [get_key, hv, hns]
  · cases hg : dictGet st.keys name with
    | none => simp [get_key, hg]
    | some v =>
      cases hs : starts_with v "Your" with
      | true => simp [get_key, hg, hs]
      | false => simp [get_key, hg, hs]
  · exact ⟨"API key for \x27" ++ name ++ "\x27 is not set. Please update ",
      " with your actual API key.", rfl⟩
  · intro fs we v hv
    simp [get_key, set_key, dictGet_dictInsert_self, hv]

/-- Witness for C1: a present non-placeholder value is returned, and a key
just set to a "Your"-prefixed value raises. -/
theorem get_key_contract_witness :
    get_key ⟨"cfg.json", [("A", "B")]⟩ "A" = Except.ok "B" ∧
    get_key (set_key ⟨"cfg.json", [("A", "B")]⟩ ⟨true, FileData.valid []⟩
        none "X" "YourKeyHere").1 "X" =
      Except.error (PyError.valueError (key_error_msg "cfg.json" "X")) :=
  ⟨(get_key_contract ⟨"cfg.json", [("A", "B")]⟩ "A").1 "B" (by decide) (by decide),
   (get_key_contract ⟨"cfg.json", [("A", "B")]⟩ "X").2.2.2
     ⟨true, FileData.valid []⟩ none "YourKeyHere" (by decide)⟩

/-- C9: the placeholder check is a case-sensitive match on the four
characters "Your" at the start of the value: every present value that does
not begin with exactly "Your" is returned rather than rejected. -/
theorem placeholder_check_case_sensitive (st : ManagerState) (name v : String)
    (hv : dictGet st.keys name = some v) (hns : starts_with v "Your" = false) :
    get_key st name = Except.ok v := by
  simp [get_key, hv, hns]

/-- Witness for C9: the lower-case value "your_key" and the value
"MyYourKey" (with "Your" not at the start) are both returned. -/
theorem placeholder_check_case_sensitive_witness :
    get_key ⟨"p", [("k", "your_key"), ("m", "MyYourKey")]⟩ "k" =
      Except.ok "your_key" ∧
    get_key ⟨"p", [("k", "your_key"), ("m", "MyYourKey")]⟩ "m" =
      Except.ok "MyYourKey" :=
  ⟨placeholder_check_case_sensitive ⟨"p", [("k", "your_key"), ("m", "MyYourKey")]⟩
      "k" "your_key" (by decide) (by decide),
   placeholder_check_case_sensitive ⟨"p", [("k", "your_key"), ("m", "MyYourKey")]⟩
      "m" "MyYourKey" (by decide) (by decide)⟩

/-- C10: `get_key` is read-only: whether it returns a value or raises, it
leaves the instance state and the filesystem unchanged, and running it twice
in succession in the same state gives the same outcome. -/
theorem get_key_readonly (st : ManagerState) (fs : FS) (name : String) :
    (get_key_st st fs name).2.1 = st ∧
    (get_key_st st fs name).2.2 = fs ∧
    (get_key_st (get_key_st st fs name).2.1 (get_key_st st fs name).2.2
        name).1 =
      (get_key_st st fs name).1 :=
  ⟨rfl, rfl, rfl⟩

/-- When the singleton slot already holds an instance, a construction call
returns it and changes nothing (the `_initialized` guard skips the body). -/
theorem construct_of_inst_some (env : String → Option String) (path : String)
    (ps : ProcState) (st : ManagerState) (h : ps.inst = some st) :
    construct env path ps = (InitResult.ok st, ps) := by
  obtain ⟨i, fs0⟩ := ps
  simp only at h
  subst h
  rfl

/-- C2: the claim describes the documented intent, but on the code the first
construction with no existing config file does not write the default
mapping: `_load_config_file` evaluates the unbound module-level name
`DEFAULT_CONFIG`, so `NameError` propagates out of construction, and the
file is left created but empty (invalid JSON), whatever its previous
content field was. -/
theorem construct_missing_file_name_error (env : String → Option String)
    (path : String) (c : FileData) :
    construct env path ⟨none, ⟨false, c⟩⟩ =
      (InitResult.err (PyError.nameError "DEFAULT_CONFIG"),
       ⟨some ⟨path, []⟩, ⟨true, FileData.invalid emptyFileJsonErr⟩⟩) := rfl

/-- C3: when the config file exists but cannot be read or parsed,
construction fails with the config-read error, whose message carries the
file path and the underlying cause, and the caller receives no instance
(the result is the error, not a store with an empty map). -/
theorem construct_unreadable_file_error (env : String → Option String)
    (path cause : String) :
    (construct env path ⟨none, ⟨true, FileData.invalid cause⟩⟩).1 =
      InitResult.err (PyError.runtimeError
        ("Error reading configuration file " ++ path ++ ": " ++ cause)) ∧
    (∃ a, "Error reading configuration file " ++ path ++ ": " ++ cause =
        a ++ path ++ ": " ++ cause) :=
  ⟨rfl, ⟨"Error reading configuration file ", rfl⟩⟩

/-- C4: after a first construction that loads dict `d` from the file, every
loaded key holds the environment override when the variable named by the
upper-cased key is set to a non-empty string, and the file value otherwise. -/
theorem construct_env_override (env : String → Option String) (path : String)
    (d : Dict) (k v : String) (hk : dictGet d k = some v) :
    ∃ st ps2, construct env path ⟨none, ⟨true, FileData.valid d⟩⟩ =
        (InitResult.ok st, ps2) ∧
      dictGet st.keys k = some (env_value env k v) ∧
      (∀ e, env (to_upper k) = some e → e ≠ "" → dictGet st.keys k = some e) ∧
      (env (to_upper k) = none → dictGet st.keys k = some v) ∧
      (env (to_upper k) = some "" → dictGet st.keys k = some v) := by
  refine ⟨⟨path, override_with_env env d⟩, _, rfl, ?_, ?_, ?_, ?_⟩
  · rw [show (⟨path, override_with_env env d⟩ : ManagerState).keys =
      override_with_env env d from rfl, dictGet_override_with_env, hk]
    rfl
  · intro e he hne
    rw [show (⟨path, override_with_env env d⟩ : ManagerState).keys =
      override_with_env env d from rfl, dictGet_override_with_env, hk]
    simp [env_value, he, hne]
  · intro he
    rw [show (⟨path, override_with_env env d⟩ : ManagerState).keys =
      override_with_env env d from rfl, dictGet_override_with_env, hk]
    simp [env_value, he]
  · intro he
    rw [show (⟨path, override_with_env env d⟩ : ManagerState).keys =
      override_with_env env d from rfl, dictGet_override_with_env, hk]
    simp [env_value, he]

/-- The environment used by the C4 witness: variable `FOO` (and only that
one) is set to `"env-value"`. -/
def envFoo : String → Option String :=
  fun s => if s = "FOO" then some "env-value" else none

/-- Witness for C4: with the file containing key `"foo"` bound to
`"file-value"` and environment variable `FOO` set to `"env-value"`,
construction yields a store in which `"foo"` reads as `"env-value"` and
`get_key "foo"` returns it. -/
theorem construct_env_override_witness :
    ∃ st ps2,
      construct envFoo "p"
          ⟨none, ⟨true, FileData.valid [("foo", "file-value")]⟩⟩ =
        (InitResult.ok st, ps2) ∧
      dictGet st.keys "foo" = some "env-value" ∧
      get_key st "foo" = Except.ok "env-value" := by
  obtain ⟨st, ps2, hc, _, himp, _, _⟩ :=
    construct_env_override envFoo "p" [("foo", "file-value")] "foo"
      "file-value" (by decide)
  have h2 : dictGet st.keys "foo" = some "env-value" :=
    himp "env-value" (by decide) (by decide)
  refine ⟨st, ps2, hc, h2, ?_⟩
  simp [get_key, h2]
  decide

/-- C5: `set_key` upserts the binding into the in-memory store and
immediately writes the whole updated store to the config file, so that
re-reading and parsing the file yields a mapping binding the name to the
value (no write buffering). `write_err = none` is the write succeeding. -/
theorem set_key_roundtrip (st : ManagerState) (fs : FS) (name value : String) :
    dictGet (set_key st fs none name value).1.keys name = some value ∧
    (set_key st fs none name value).2.1.fileExists = true ∧
    (set_key st fs none name value).2.1.fileContent =
      FileData.valid (set_key st fs none name value).1.keys ∧
    ∃ d, (set_key st fs none name value).2.1.fileContent = FileData.valid d ∧
      dictGet d name = some value :=
  ⟨dictGet_dictInsert_self st.keys name value, rfl, rfl,
   ⟨dictInsert st.keys name value, rfl,
    dictGet_dictInsert_self st.keys name value⟩⟩

/-- C6: when the file write inside `set_key` fails, the exception is caught
in `_save_config` and reported as a log message, `set_key` returns normally
(its embedding has no error channel because every exception is caught), the
filesystem is untouched, and the in-memory store still holds the new
binding — the update is not rolled back and the caller sees no error. -/
theorem set_key_write_failure (st : ManagerState) (fs : FS)
    (e name value : String) :
    dictGet (set_key st fs (some e) name value).1.keys name = some value ∧
    (set_key st fs (some e) name value).2.1 = fs ∧
    (set_key st fs (some e) name value).2.2 =
      ["Error saving configuration file: " ++ e] :=
  ⟨dictGet_dictInsert_self st.keys name value, rfl, rfl⟩

/-- C7: construction is idempotent: after a construction returned instance
`st` leaving process state `ps1`, a second construction (whatever its
arguments) returns the same instance and performs no re-initialization
(`ps1`, hence KeyStore, config path and file, are unchanged); and a
`set_key` done through the singleton after the first construction is
visible through any later construction. -/
theorem construct_idempotent (env env2 env3 : String → Option String)
    (path path2 path3 : String) (ps ps1 : ProcState) (st : ManagerState)
    (h : construct env path ps = (InitResult.ok st, ps1)) :
    construct env2 path2 ps1 = (InitResult.ok st, ps1) ∧
    ∀ we name value,
      ∃ st2, construct env3 path3 (set_key_proc ps1 we name value).1 =
          (InitResult.ok st2, (set_key_proc ps1 we name value).1) ∧
        dictGet st2.keys name = some value := by
  have hinst : ps1.inst = some st := by
    obtain ⟨i, fs0⟩ := ps
    cases i with
    | some st0 =>
      rw [construct_of_inst_some env path ⟨some st0, fs0⟩ st0 rfl] at h
      simp only [Prod.mk.injEq, InitResult.ok.injEq] at h
      obtain ⟨h1, h2⟩ := h
      rw [← h2]
      simp [h1]
    | none =>
      obtain ⟨fe, fc⟩ := fs0
      cases fe with
      | false => simp [construct, load_config_file] at h
      | true =>
        cases fc with
        | invalid cause => simp [construct, load_config_file] at h
        | valid d =>
          simp [construct, load_config_file] at h
          obtain ⟨h1, h2⟩ := h
          rw [← h2]
          simp [h1]
  refine ⟨construct_of_inst_some env2 path2 ps1 st hinst, ?_⟩
  intro we name value
  refine ⟨(set_key st ps1.fs we name value).1, ?_, ?_⟩
  · apply construct_of_inst_some
    obtain ⟨i1, fs1⟩ := ps1
    have h3 : i1 = some st := hinst
    subst h3
    rfl
  · exact dictGet_dictInsert_self st.keys name value

/-- The empty environment, used by the C7 witness. -/
def envNone : String → Option String := fun _ => none

/-- Witness for C7: after a concrete first construction, a second
construction returns the identical instance and leaves the process state
unchanged. -/
theorem construct_idempotent_witness :
    construct envNone "p"
        ⟨some ⟨"p", [("A", "B")]⟩, ⟨true, FileData.valid [("A", "B")]⟩⟩ =
      (InitResult.ok ⟨"p", [("A", "B")]⟩,
       ⟨some ⟨"p", [("A", "B")]⟩, ⟨true, FileData.valid [("A", "B")]⟩⟩) :=
  (construct_idempotent envNone envNone envNone "p" "p" "p"
    ⟨none, ⟨true, FileData.valid [("A", "B")]⟩⟩
    ⟨some ⟨"p", [("A", "B")]⟩, ⟨true, FileData.valid [("A", "B")]⟩⟩
    ⟨"p", [("A", "B")]⟩ (by decide)).1

/-- C8: `set_key` changes no other binding: every key other than the one
set reads the same before and after, both in the in-memory store and in the
rewritten config file, which also carries the new binding. -/
theorem set_key_frame (st : ManagerState) (fs : FS) (name value k : String)
    (hk : k ≠ name) :
    dictGet (set_key st fs none name value).1.keys k = dictGet st.keys k ∧
    ∃ d, (set_key st fs none name value).2.1.fileContent = FileData.valid d ∧
      dictGet d k = dictGet st.keys k ∧ dictGet d name = some value :=
  ⟨dictGet_dictInsert_ne st.keys name value k hk,
   ⟨dictInsert st.keys name value, rfl,
    dictGet_dictInsert_ne st.keys name value k hk,
    dictGet_dictInsert_self st.keys name value⟩⟩

/-- Witness for C8: setting `"FOO"` leaves the binding of `"A"` unchanged. -/
theorem set_key_frame_witness :
    dictGet (set_key ⟨"p", [("A", "B")]⟩ ⟨true, FileData.valid [("A", "B")]⟩
        none "FOO" "bar123").1.keys "A" =
      dictGet [("A", "B")] "A" :=
  (set_key_frame ⟨"p", [("A", "B")]⟩ ⟨true, FileData.valid [("A", "B")]⟩
    "FOO" "bar123" "A" (by decide)).1

end CredManager
